import Mathlib

/-!
# Verification of the parabrisas inventory store (`utils/db.go`)

A shallow embedding of the SQLite-backed data-access layer in `utils/db.go`:
the table rows become Lean structures, the store becomes an explicit state
record, and each Go method becomes a Lean function from the state to a
result paired with the successor state.  The SQL statements executed by the
methods are given their SQLite semantics; the behaviour of the `sqlx`
driver calls used by the methods (`Exec`, `Get`, `MustExec`) is modelled to
the extent the methods exercise it.
-/

namespace Parabrisas

/-- A row of the `brand` table, which coincides with the Go struct `Brand`
(`Id int64`, `Name string`; columns `id`, `name`). -/
structure Brand where
  id : Int
  name : String
deriving DecidableEq, Repr

/-- A row of the `model` table, which coincides with the Go struct `Model`
(`Id int64`, `Name string`, `Brand int64` tagged `db:"brand_id"`;
columns `id`, `name`, `brand_id`). -/
structure Model where
  id : Int
  name : String
  brand_id : Int
deriving DecidableEq, Repr

/-- A row of the `windshield` table: columns `id`, `type`, `year`, `stock`,
`brand_id`, `model_id`.  (The Go struct `WindShield` omits the `id`
column, but the table has it and `UpdateWindshieldStock` keys on it.) -/
structure WindshieldRow where
  id : Int
  type : String
  year : String
  stock : Int
  brand_id : Int
  model_id : Int
deriving DecidableEq, Repr

/-- The Go struct `WindShield` returned by `GetWindShieldsByModelId`:
`Type`, `Brand`, `Model`, `Stock`, `Year` (no id field). -/
structure WindShield where
  type : String
  brand_id : Int
  model_id : Int
  stock : Int
  year : String
deriving DecidableEq, Repr

/-- The errors the data-access layer can surface to a caller.

* `errDuplicate` is the package-level `ErrDuplicate` value, returned when
  SQLite reports `SQLITE_CONSTRAINT_UNIQUE` (extended code 2067).
* `constraintForeignKey` is a SQLite `SQLITE_CONSTRAINT_FOREIGNKEY`
  failure (extended code 787); the Go code does not classify it, so it is
  passed through verbatim as a generic error.
* `errNoRows` is `database/sql`'s `sql.ErrNoRows`.
* `scannableSliceErr n` is the `sqlx` error
  "scannable dest type slice with >1 columns (n) in result" raised by
  `Row.scanAny` when `Get` is called with a slice destination and the
  result set has `n > 1` columns.
* `unsupportedScan` is the `database/sql` error raised when a single
  column value is scanned into a slice destination. -/
inductive DBErr where
  | errDuplicate
  | constraintForeignKey
  | errNoRows
  | scannableSliceErr (nCols : Nat)
  | unsupportedScan
deriving DecidableEq, Repr

/-- The state of the store once the schema exists: the contents of the
three tables, the next rowid each table will assign (SQLite assigns
1, 2, 3, … to `INTEGER PRIMARY KEY` columns left unspecified on insert),
and whether the connection enforces foreign keys (`PRAGMA foreign_keys`,
which SQLite defaults to OFF and which only the connection string could
turn on — see `Migrate` below). -/
structure DBState where
  fkEnabled : Bool
  brands : List Brand
  models : List Model
  windshields : List WindshieldRow
  nextBrandId : Int
  nextModelId : Int
  nextWindshieldId : Int
deriving DecidableEq, Repr

/-- A freshly migrated store: empty tables, rowids starting at 1, and the
foreign-key setting inherited from the connection. -/
def DBState.empty (fk : Bool) : DBState :=
  ⟨fk, [], [], [], 1, 1, 1⟩

/-- `CreateBrand(name)`: executes
`INSERT INTO brand(name) values(?)`.
The `name` column is `TEXT UNIQUE NOT NULL`, so inserting an existing name
fails with `SQLITE_CONSTRAINT_UNIQUE`, which the Go code maps to
`(0, ErrDuplicate)`; otherwise the row is inserted with the next rowid and
`LastInsertId` is returned with a nil error. -/
def CreateBrand (s : DBState) (name : String) : (Int × Option DBErr) × DBState :=
  if s.brands.any (fun b => b.name == name) then
    ((0, some DBErr.errDuplicate), s)
  else
    ((s.nextBrandId, none),
      { s with
        brands := s.brands ++ [⟨s.nextBrandId, name⟩]
        nextBrandId := s.nextBrandId + 1 })

/-- `CreateModel(name, brand_id)`: executes
`INSERT INTO model(name, brand_id) values(?, ?)`.
The `name` column is `TEXT UNIQUE NOT NULL`: a duplicate name fails with
`SQLITE_CONSTRAINT_UNIQUE` (mapped to `(0, ErrDuplicate)`).  The table
declares `FOREIGN KEY(brand_id) REFERENCES brand(id)`; when the
connection enforces foreign keys, inserting a `brand_id` with no matching
brand row fails with `SQLITE_CONSTRAINT_FOREIGNKEY`, which the Go code
does not classify and returns verbatim as `(0, err)`.  When enforcement
is off (SQLite's default) the dangling insert succeeds. -/
def CreateModel (s : DBState) (name : String) (brand_id : Int) :
    (Int × Option DBErr) × DBState :=
  if s.models.any (fun m => m.name == name) then
    ((0, some DBErr.errDuplicate), s)
  else if s.fkEnabled && !(s.brands.any (fun b => b.id == brand_id)) then
    ((0, some DBErr.constraintForeignKey), s)
  else
    ((s.nextModelId, none),
      { s with
        models := s.models ++ [⟨s.nextModelId, name, brand_id⟩]
        nextModelId := s.nextModelId + 1 })

/-- `CreateWindshield(typename, year, stock, brand_id, model_id)`: executes
`INSERT INTO windshield(type, year, stock, brand_id, model_id) values(?, ?, ?, ?, ?)`.
The only unique constraints on the table (`PRIMARY KEY(id)` and
`UNIQUE(id, model_id)`) involve the freshly assigned rowid, so they never
fire; the two foreign keys (`brand_id`, `model_id`) fail with
`SQLITE_CONSTRAINT_FOREIGNKEY` when enforcement is on and the referenced
row is absent, returned verbatim as `(0, err)`. -/
def CreateWindshield (s : DBState) (typename : String) (year : String)
    (stock brand_id model_id : Int) : (Int × Option DBErr) × DBState :=
  if s.fkEnabled &&
      (!(s.brands.any (fun b => b.id == brand_id)) ||
       !(s.models.any (fun m => m.id == model_id))) then
    ((0, some DBErr.constraintForeignKey), s)
  else
    ((s.nextWindshieldId, none),
      { s with
        windshields :=
          s.windshields ++ [⟨s.nextWindshieldId, typename, year, stock, brand_id, model_id⟩]
        nextWindshieldId := s.nextWindshieldId + 1 })

/-- `UpdateWindshieldStock(id, stock)`: executes
`UPDATE windshield SET stock=? WHERE id=?`.
Every row whose `id` matches (at most one, since `id` is the primary key)
has its `stock` column overwritten; no other column, row or table is
touched.  The statement cannot violate any constraint, so the method
always returns nil — in particular, when no row matches, zero rows are
affected and no error is raised. -/
def UpdateWindshieldStock (s : DBState) (id stock : Int) : Option DBErr × DBState :=
  (none,
    { s with
      windshields :=
        s.windshields.map (fun w => if w.id == id then { w with stock := stock } else w) })

/-- The error produced by `sqlx`'s single-row `Get` when its destination is
a slice (as in all four query methods of `db.go`).  `Row.scanAny` deems a
slice destination "scannable" (it is not a struct), and then:

* if the result set has more than one column it returns
  "scannable dest type slice with >1 columns (n) in result" — before ever
  looking at the rows, so this fires even on an empty result set;
* otherwise it calls `Row.Scan`, which returns `sql.ErrNoRows` on an empty
  result set and an "unsupported Scan" conversion error when a column
  value is scanned into a slice.

Hence `Get` into a slice destination always returns an error; which one
depends only on the column count and on whether the result set is empty. -/
def sqlxGetSliceErr (nCols : Nat) (noRows : Bool) : DBErr :=
  if 1 < nCols then DBErr.scannableSliceErr nCols
  else if noRows then DBErr.errNoRows
  else DBErr.unsupportedScan

/-- The common error plumbing of the four query methods: on `sql.ErrNoRows`
return the empty slice and a nil error, on any other error return the
empty slice and the error verbatim.  (The success branch of the Go code,
which would return the filled slice, is unreachable because `Get` with a
slice destination always errors — see `sqlxGetSliceErr`.) -/
def getQueryResult (α : Type) (nCols : Nat) (noRows : Bool) : List α × Option DBErr :=
  let e := sqlxGetSliceErr nCols noRows
  if e = DBErr.errNoRows then ([], none) else ([], some e)

/-- `GetAllBrands()`: runs `SELECT * FROM brand` (columns `id`, `name`)
through `db.Get(&brands, …)` with destination `*[]Brand`. -/
def GetAllBrands (s : DBState) : List Brand × Option DBErr :=
  getQueryResult Brand 2 s.brands.isEmpty

/-- The rows `SELECT * FROM model WHERE brand_id=?` matches. -/
def modelsOfBrandId (s : DBState) (id : Int) : List Model :=
  s.models.filter (fun m => m.brand_id == id)

/-- `GetModelsByBrandId(id)`: runs `SELECT * FROM model WHERE brand_id=?`
(columns `id`, `name`, `brand_id`) through `db.Get(&models, …)` with
destination `*[]Model`. -/
def GetModelsByBrandId (s : DBState) (id : Int) : List Model × Option DBErr :=
  getQueryResult Model 3 (modelsOfBrandId s id).isEmpty

/-- The rows matched by the join
`SELECT m.name, m.id, m.brand_id, b.name AS brand_name FROM model m JOIN
brand b ON m.brand_id = b.id WHERE b.name = ?`: the model rows whose
owning brand carries the given name (the projected `brand_name` column is
accounted for in the column count of `GetModelsByBrandName`). -/
def modelsJoinBrandOnName (s : DBState) (name : String) : List Model :=
  s.models.filter (fun m => s.brands.any (fun b => m.brand_id == b.id && b.name == name))

/-- `GetModelsByBrandName(name)`: runs the four-column join above through
`db.Get(&models, …)` with destination `*[]Model`. -/
def GetModelsByBrandName (s : DBState) (name : String) : List Model × Option DBErr :=
  getQueryResult Model 4 (modelsJoinBrandOnName s name).isEmpty

/-- The rows `SELECT * FROM windShield WHERE model_id = ?` matches
(SQLite table names are case-insensitive, so `windShield` is the
`windshield` table; columns `id`, `type`, `year`, `stock`, `brand_id`,
`model_id`). -/
def windshieldsOfModelId (s : DBState) (id : Int) : List WindshieldRow :=
  s.windshields.filter (fun w => w.model_id == id)

/-- `GetWindShieldsByModelId(id)`: runs the six-column select above through
`db.Get(&windshields, …)` with destination `*[]WindShield`. -/
def GetWindShieldsByModelId (s : DBState) (id : Int) : List WindShield × Option DBErr :=
  getQueryResult WindShield 6 (windshieldsOfModelId s id).isEmpty

/-! ## Schema migration (`Migrate`)

`Migrate` opens a transaction (`MustBegin`), runs four statements through
`MustExec` — which panics on any execution error — and commits, panicking
if the commit fails.  The statement strings below are quoted verbatim from
`utils/db.go` (the Go source uses raw backtick strings; tabs appear as
they do in the file). -/

/-- The first statement of `Migrate`.  Note that it carries no `= ON` (or
`= 1`) clause: in SQLite, `PRAGMA foreign_keys;` merely *queries* the
current setting of the flag and changes nothing. -/
def setPragma : String := "PRAGMA foreign_keys;"

/-- The `brand` DDL of `Migrate`, verbatim.  The column list ends in
`NOT NULL,` directly before the closing parenthesis — a trailing comma,
which SQLite's grammar rejects as a syntax error. -/
def createBrandTable : String :=
  "\n    CREATE TABLE IF NOT EXISTS brand(\n      id         INTEGER PRIMARY KEY NOT NULL, \n      name\t\t\t TEXT UNIQUE NOT NULL,\n    );\n  "

/-- The `model` DDL of `Migrate`, verbatim.  Its definition list ends in
`ON DELETE CASCADE,` directly before the closing parenthesis — again a
trailing comma, rejected by SQLite. -/
def createModelTable : String :=
  "\n    CREATE TABLE IF NOT EXISTS model(\n      id\t\t\t\tINTEGER  PRIMARY KEY NOT NULL,\n      name\t\t\tTEXT UNIQUE NOT NULL,\n\t\t\tbrand_id\tINTEGER  NOT NULL,\n\t\t\tUNIQUE(id, brand_id),\n      FOREIGN KEY(brand_id) REFERENCES brand(id) ON DELETE CASCADE,\n    );\n  "

/-- The `windshield` DDL of `Migrate`, verbatim.  Its last definition,
`FOREIGN KEY(brand_id) REFERENCES brand(id) ON DELETE CASCADE`, is not
followed by a comma, so this statement is well formed. -/
def createWindshieldTable : String :=
  "\n    CREATE TABLE IF NOT EXISTS windshield(\n      id\t\t\t\tINTEGER  PRIMARY KEY NOT NULL,\n      type\t\t\tTEXT NOT NULL,\n\t\t\tyear      TEXT NOT NULL,\n      stock     INTEGER NOT NULL,\n\t\t\tbrand_id  INTEGER NOT NULL,\n      model_id  INTEGER NOT NULL,\n      UNIQUE(id, model_id),\n      FOREIGN KEY(model_id) REFERENCES model(id) ON DELETE CASCADE,\n      FOREIGN KEY(brand_id) REFERENCES brand(id) ON DELETE CASCADE\n    );\n  "

/-- Scans a character list for a comma that is followed, across
whitespace only, by a closing parenthesis.  The flag records whether the
most recent non-whitespace character was a comma. -/
def trailingCommaScan : List Char → Bool → Bool
  | [], _ => false
  | c :: rest, pending =>
    if c = ',' then trailingCommaScan rest true
    else if c = ')' then pending || trailingCommaScan rest false
    else if c.isWhitespace then trailingCommaScan rest pending
    else trailingCommaScan rest false

/-- Whether a statement contains a comma immediately (up to whitespace)
before a closing parenthesis. -/
def trailingCommaBeforeParen (stmt : String) : Bool :=
  trailingCommaScan stmt.toList false

/-- The slice of SQLite's parser the `Migrate` statements exercise: within
a parenthesized definition list, a comma must introduce another
definition, so a comma directly before `)` makes the statement a syntax
error (`near ")": syntax error`) and the statement is rejected; the
statements of `Migrate` contain no other construct SQLite rejects. -/
def sqliteAcceptsCreate (stmt : String) : Bool :=
  !(trailingCommaBeforeParen stmt)

/-- The schema-level state of the backing database file: which of the
three tables exist, and the connection's foreign-key-enforcement flag. -/
structure SchemaState where
  fkEnabled : Bool
  brandTable : Bool
  modelTable : Bool
  windshieldTable : Bool
deriving DecidableEq, Repr

/-- Names of the three tables `Migrate` is meant to create. -/
inductive TableId where
  | brand
  | model
  | windshield
deriving DecidableEq, Repr

/-- Records a table as existing (the `IF NOT EXISTS` form is idempotent:
it succeeds, and leaves the table in place, whether or not it already
existed). -/
def setTable (st : SchemaState) : TableId → SchemaState
  | TableId.brand => { st with brandTable := true }
  | TableId.model => { st with modelTable := true }
  | TableId.windshield => { st with windshieldTable := true }

/-- The statements `Migrate` executes: the pragma query and the three
`CREATE TABLE IF NOT EXISTS` statements, each carrying its verbatim SQL
text. -/
inductive Stmt where
  | pragmaForeignKeysQuery
  | createTable (sql : String) (table : TableId)

/-- Executing one statement on the transaction's view of the schema.
`PRAGMA foreign_keys;` only reads the flag, so it changes nothing; a
`CREATE TABLE` either takes effect or is rejected by the parser. -/
def execStmt (st : SchemaState) : Stmt → Except Unit SchemaState
  | Stmt.pragmaForeignKeysQuery => Except.ok st
  | Stmt.createTable sql t =>
    if sqliteAcceptsCreate sql then Except.ok (setTable st t) else Except.error ()

/-- Executing a sequence of statements, stopping at the first failure. -/
def execStmts (st : SchemaState) : List Stmt → Except Unit SchemaState
  | [] => Except.ok st
  | stmt :: rest =>
    match execStmt st stmt with
    | Except.error e => Except.error e
    | Except.ok st2 => execStmts st2 rest

/-- The outcome of `Migrate`, which has no error return value: either every
statement succeeded and the transaction committed, or some `MustExec`
panicked, in which case the uncommitted transaction is rolled back and
the persisted schema is exactly what it was before the call. -/
inductive MigrateOutcome where
  | panicked (persisted : SchemaState)
  | committed (persisted : SchemaState)
deriving DecidableEq, Repr

/-- The statement list of `Migrate`, in source order. -/
def migrateStmts : List Stmt :=
  [Stmt.pragmaForeignKeysQuery,
   Stmt.createTable createBrandTable TableId.brand,
   Stmt.createTable createModelTable TableId.model,
   Stmt.createTable createWindshieldTable TableId.windshield]

/-- `Migrate()`: runs `migrateStmts` inside one transaction via `MustExec`
and commits.  A failing statement makes `MustExec` panic before the
commit, so the pre-call schema persists unchanged.  (The commit itself,
when reached, is modelled as succeeding; were it to fail the Go code also
panics, likewise leaving no partial schema.) -/
def Migrate (st : SchemaState) : MigrateOutcome :=
  match execStmts st migrateStmts with
  | Except.error _ => MigrateOutcome.panicked st
  | Except.ok st2 => MigrateOutcome.committed st2

/-! ## Direct brand deletion and referential integrity -/

/-- Whether a windshield row is swept up by the cascading delete of brand
`id`: it references the brand directly, or it references one of the model
rows that the same delete removes. -/
def windshieldCascades (s : DBState) (id : Int) (w : WindshieldRow) : Bool :=
  w.brand_id == id ||
    (s.models.filter (fun m => m.brand_id == id)).any (fun m => m.id == w.model_id)

/-- A direct storage-level `DELETE FROM brand WHERE id = ?` (no store
operation exposes deletion).  SQLite honours the `ON DELETE CASCADE`
clauses only when the connection enforces foreign keys: in that case the
models owned by the brand are removed, as are the windshield rows
referencing the brand directly or referencing a removed model.  With
enforcement off (the default), only the brand row itself disappears. -/
def deleteBrandDirect (s : DBState) (id : Int) : DBState :=
  if s.fkEnabled then
    { s with
      brands := s.brands.filter (fun b => b.id != id)
      models := s.models.filter (fun m => m.brand_id != id)
      windshields := s.windshields.filter (fun w => !(windshieldCascades s id w)) }
  else
    { s with brands := s.brands.filter (fun b => b.id != id) }

/-- Referential integrity of a store state: every model row references an
existing brand, and every windshield row references an existing brand and
an existing model. -/
def NoDangling (s : DBState) : Prop :=
  (∀ m ∈ s.models, ∃ b ∈ s.brands, b.id = m.brand_id) ∧
  (∀ w ∈ s.windshields,
    (∃ b ∈ s.brands, b.id = w.brand_id) ∧ (∃ m ∈ s.models, m.id = w.model_id))

instance (s : DBState) : Decidable (NoDangling s) := by
  unfold NoDangling
  infer_instance

/-- The states reachable from a fresh store through the store's operations
together with direct storage-level brand deletion.  The connection's
foreign-key flag is fixed when the store is opened. -/
inductive Reachable : DBState → Prop where
  | init (fk : Bool) : Reachable (DBState.empty fk)
  | createBrand {s : DBState} (h : Reachable s) (name : String) :
      Reachable (CreateBrand s name).2
  | createModel {s : DBState} (h : Reachable s) (name : String) (brand_id : Int) :
      Reachable (CreateModel s name brand_id).2
  | createWindshield {s : DBState} (h : Reachable s) (typename year : String)
      (stock brand_id model_id : Int) :
      Reachable (CreateWindshield s typename year stock brand_id model_id).2
  | updateStock {s : DBState} (h : Reachable s) (id stock : Int) :
      Reachable (UpdateWindshieldStock s id stock).2
  | deleteBrand {s : DBState} (h : Reachable s) (id : Int) :
      Reachable (deleteBrandDirect s id)

/-! ## Shape lemmas for the write operations -/

/-- `CreateBrand` either leaves the state untouched (duplicate name) or
appends one brand row carrying the next rowid. -/
theorem CreateBrand_state (s : DBState) (name : String) :
    (CreateBrand s name).2 = s ∨
    (CreateBrand s name).2
      = { s with brands := s.brands ++ [⟨s.nextBrandId, name⟩],
                 nextBrandId := s.nextBrandId + 1 } := by
  unfold CreateBrand
  split
  · exact Or.inl rfl
  · exact Or.inr rfl

/-- `CreateModel` either leaves the state untouched (duplicate name or
foreign-key failure) or appends one model row; in the latter case, if the
connection enforces foreign keys, the referenced brand exists. -/
theorem CreateModel_state (s : DBState) (name : String) (brand_id : Int) :
    (CreateModel s name brand_id).2 = s ∨
    ((s.fkEnabled = true → ∃ b ∈ s.brands, b.id = brand_id) ∧
      (CreateModel s name brand_id).2
        = { s with models := s.models ++ [⟨s.nextModelId, name, brand_id⟩],
                   nextModelId := s.nextModelId + 1 }) := by
  unfold CreateModel
  split
  · exact Or.inl rfl
  · split
    · exact Or.inl rfl
    · next hcond =>
      refine Or.inr ⟨?_, rfl⟩
      intro hfk
      cases hb : s.brands.any (fun b => b.id == brand_id) with
      | false => exact absurd (by rw [hfk, hb]; rfl) hcond
      | true =>
        obtain ⟨b, hbm, hbe⟩ := List.any_eq_true.mp hb
        exact ⟨b, hbm, beq_iff_eq.mp hbe⟩

/-- `CreateWindshield` either leaves the state untouched (foreign-key
failure) or appends one windshield row; in the latter case, if the
connection enforces foreign keys, the referenced brand and model exist. -/
theorem CreateWindshield_state (s : DBState) (typename year : String)
    (stock brand_id model_id : Int) :
    (CreateWindshield s typename year stock brand_id model_id).2 = s ∨
    ((s.fkEnabled = true →
        (∃ b ∈ s.brands, b.id = brand_id) ∧ (∃ m ∈ s.models, m.id = model_id)) ∧
      (CreateWindshield s typename year stock brand_id model_id).2
        = { s with
            windshields := s.windshields ++
              [⟨s.nextWindshieldId, typename, year, stock, brand_id, model_id⟩],
            nextWindshieldId := s.nextWindshieldId + 1 }) := by
  unfold CreateWindshield
  split
  · exact Or.inl rfl
  · next hcond =>
    refine Or.inr ⟨?_, rfl⟩
    intro hfk
    constructor
    · cases hb : s.brands.any (fun b => b.id == brand_id) with
      | false => exact absurd (by rw [hfk, hb]; rfl) hcond
      | true =>
        obtain ⟨b, hbm, hbe⟩ := List.any_eq_true.mp hb
        exact ⟨b, hbm, beq_iff_eq.mp hbe⟩
    · cases hm : s.models.any (fun m => m.id == model_id) with
      | false =>
        refine absurd ?_ hcond
        rw [hfk, hm]
        cases s.brands.any (fun b => b.id == brand_id) <;> rfl
      | true =>
        obtain ⟨m, hmm, hme⟩ := List.any_eq_true.mp hm
        exact ⟨m, hmm, beq_iff_eq.mp hme⟩

set_option maxRecDepth 8192 in
/-- Claim C1 (code bug): `Migrate` is meant to create the three tables and
enable foreign-key enforcement, but on a fresh database it panics and
creates nothing: its `brand` DDL is rejected by SQLite (trailing comma in
the column list, see `createBrandTable`), so the first `MustExec` inside
the transaction panics and the pre-call schema — here: no tables, foreign
keys off — persists; independently, its pragma statement reads
`PRAGMA foreign_keys;` with no `= ON`, which only queries the flag. -/
theorem Migrate_panics_creating_nothing :
    Migrate ⟨false, false, false, false⟩
      = MigrateOutcome.panicked ⟨false, false, false, false⟩ ∧
    sqliteAcceptsCreate createBrandTable = false ∧
    sqliteAcceptsCreate createModelTable = false ∧
    setPragma = "PRAGMA foreign_keys;" := by
  refine ⟨rfl, ?_, ?_, rfl⟩ <;> decide

set_option maxRecDepth 8192 in
/-- Claim C7 (confirmed): when a statement of `Migrate` fails, the failure
is a panic — `Migrate` has no error return value — raised before the
transaction commits, so the persisted schema is exactly the pre-call
schema: no partial schema remains.  (On the code as written this happens
on every call: the second statement is always rejected.) -/
theorem Migrate_failure_fatal_no_partial_schema (st : SchemaState) :
    Migrate st = MigrateOutcome.panicked st := rfl

/-- Claim C2 (confirmed): creating a brand whose name is already present
fails with `ErrDuplicate`, returns identity 0, and leaves the store — in
particular the brand table — exactly as it was. -/
theorem CreateBrand_duplicate (s : DBState) (name : String)
    (h : ∃ b ∈ s.brands, b.name = name) :
    (CreateBrand s name).1 = (0, some DBErr.errDuplicate) ∧
    (CreateBrand s name).2 = s := by
  obtain ⟨b, hb, hn⟩ := h
  have hany : s.brands.any (fun b => b.name == name) = true :=
    List.any_eq_true.mpr ⟨b, hb, beq_iff_eq.mpr hn⟩
  unfold CreateBrand
  rw [if_pos hany]
  exact ⟨rfl, rfl⟩

/-- Witness for C2 at a concrete store: a second `CreateBrand "Toyota"` on
the store already holding brand (1, "Toyota") yields `ErrDuplicate` with
identity 0 and changes nothing. -/
theorem CreateBrand_duplicate_witness :
    (CreateBrand (CreateBrand (DBState.empty false) "Toyota").2 "Toyota").1
      = (0, some DBErr.errDuplicate) ∧
    (CreateBrand (CreateBrand (DBState.empty false) "Toyota").2 "Toyota").2
      = (CreateBrand (DBState.empty false) "Toyota").2 :=
  CreateBrand_duplicate (CreateBrand (DBState.empty false) "Toyota").2 "Toyota"
    ⟨⟨1, "Toyota"⟩, by decide, rfl⟩

/-- Claim C3 (confirmed): `UpdateWindshieldStock` never errors, never
touches the brand or model tables or the connection flag; when no
windshield row carries the id it leaves the whole state unchanged, and in
general each windshield row is either untouched (id differs) or has
exactly its `stock` field overwritten (id matches). -/
theorem UpdateWindshieldStock_frame (s : DBState) (id stock : Int) :
    (UpdateWindshieldStock s id stock).1 = none ∧
    (UpdateWindshieldStock s id stock).2.fkEnabled = s.fkEnabled ∧
    (UpdateWindshieldStock s id stock).2.brands = s.brands ∧
    (UpdateWindshieldStock s id stock).2.models = s.models ∧
    ((∀ w ∈ s.windshields, w.id ≠ id) → (UpdateWindshieldStock s id stock).2 = s) ∧
    List.Forall₂
      (fun w w2 => (w.id ≠ id → w2 = w) ∧ (w.id = id → w2 = { w with stock := stock }))
      s.windshields (UpdateWindshieldStock s id stock).2.windshields := by
  refine ⟨rfl, rfl, rfl, rfl, ?_, ?_⟩
  · intro hno
    have hmap : s.windshields.map
        (fun w => if w.id == id then { w with stock := stock } else w) = s.windshields := by
      conv_rhs => rw [← List.map_id s.windshields]
      refine List.map_congr_left ?_
      intro w hw
      have : (w.id == id) = false := beq_eq_false_iff_ne.mpr (hno w hw)
      simp [this]
    show ({ s with windshields := _ } : DBState) = s
    rw [hmap]
  · show List.Forall₂ _ s.windshields (s.windshields.map _)
    induction s.windshields with
    | nil => exact List.Forall₂.nil
    | cons w rest ih =>
      refine List.Forall₂.cons ⟨?_, ?_⟩ ih
      · intro hne
        have : (w.id == id) = false := beq_eq_false_iff_ne.mpr hne
        simp [this]
      · intro heq
        have : (w.id == id) = true := beq_iff_eq.mpr heq
        simp [this]

/-- Witness for C3 at a concrete store holding one windshield row with id
1: updating the stock of the absent id 99 is a complete no-op. -/
theorem UpdateWindshieldStock_frame_witness :
    (UpdateWindshieldStock
        ⟨true, [⟨1, "Toyota"⟩], [⟨1, "Corolla", 1⟩],
          [⟨1, "WINDSHIELD", "2020", 4, 1, 1⟩], 2, 2, 2⟩ 99 7).2
      = ⟨true, [⟨1, "Toyota"⟩], [⟨1, "Corolla", 1⟩],
          [⟨1, "WINDSHIELD", "2020", 4, 1, 1⟩], 2, 2, 2⟩ :=
  (UpdateWindshieldStock_frame
      ⟨true, [⟨1, "Toyota"⟩], [⟨1, "Corolla", 1⟩],
        [⟨1, "WINDSHIELD", "2020", 4, 1, 1⟩], 2, 2, 2⟩ 99 7).2.2.2.2.1
    (by decide)

/-- Claim C4 (code bug): each query method is meant to return an empty
sequence with no error when no rows match, but every one of them returns
a non-nil error even then: they call the single-row `sqlx` `Get` with a
slice destination, and `Get` rejects a slice destination whenever the
result set has more than one column — before even looking at the rows —
so the `sql.ErrNoRows` → empty-slice normalization branch is never taken.
Evaluated on a store holding one brand (id 1) with zero models and on an
entirely empty store. -/
theorem queries_error_even_with_no_matching_rows :
    GetModelsByBrandId (CreateBrand (DBState.empty false) "Toyota").2 1
      = ([], some (DBErr.scannableSliceErr 3)) ∧
    GetAllBrands (DBState.empty false) = ([], some (DBErr.scannableSliceErr 2)) ∧
    GetModelsByBrandName (DBState.empty false) "Toyota"
      = ([], some (DBErr.scannableSliceErr 4)) ∧
    GetWindShieldsByModelId (DBState.empty false) 1
      = ([], some (DBErr.scannableSliceErr 6)) :=
  ⟨rfl, rfl, rfl, rfl⟩

/-- Counterexample to claim C5 as stated: on a store whose connection does
not enforce foreign keys — SQLite's default, and `Migrate` never turns it
on — `CreateModel("Corolla", 42)` with no brand row 42 does not fail at
all: it succeeds with identity 1 and inserts a dangling model row. -/
theorem CreateModel_missing_brand_counterexample :
    (CreateModel (DBState.empty false) "Corolla" 42).1 = (1, none) ∧
    (CreateModel (DBState.empty false) "Corolla" 42).2.models
      = [⟨1, "Corolla", 42⟩] :=
  ⟨rfl, rfl⟩

/-- Claim C5 as amended: *provided the connection enforces foreign keys*,
`CreateModel(name, brandId)` with no brand row carrying `brandId` (and
with `name` not already taken, in which case the unique-name constraint
fires first as `ErrDuplicate`) fails with the generic foreign-key error —
which is not `ErrDuplicate` — and leaves the store, in particular the
model table, unchanged. -/
theorem CreateModel_missing_brand_fk (s : DBState) (name : String) (brand_id : Int)
    (hfk : s.fkEnabled = true)
    (hnb : ∀ b ∈ s.brands, b.id ≠ brand_id)
    (hnm : ∀ m ∈ s.models, m.name ≠ name) :
    (CreateModel s name brand_id).1 = (0, some DBErr.constraintForeignKey) ∧
    DBErr.constraintForeignKey ≠ DBErr.errDuplicate ∧
    (CreateModel s name brand_id).2 = s := by
  have h1 : s.models.any (fun m => m.name == name) = false := by
    cases h : s.models.any (fun m => m.name == name) with
    | false => rfl
    | true =>
      obtain ⟨m, hm, he⟩ := List.any_eq_true.mp h
      exact absurd (beq_iff_eq.mp he) (hnm m hm)
  have h2 : s.brands.any (fun b => b.id == brand_id) = false := by
    cases h : s.brands.any (fun b => b.id == brand_id) with
    | false => rfl
    | true =>
      obtain ⟨b, hb, he⟩ := List.any_eq_true.mp h
      exact absurd (beq_iff_eq.mp he) (hnb b hb)
  unfold CreateModel
  rw [if_neg (by rw [h1]; exact Bool.false_ne_true),
      if_pos (by rw [hfk, h2]; rfl)]
  exact ⟨rfl, by decide, rfl⟩

/-- Witness for the amended C5 at a concrete store: with enforcement on
and an empty store, `CreateModel("Corolla", 42)` fails with the
foreign-key error and changes nothing. -/
theorem CreateModel_missing_brand_fk_witness :
    (CreateModel (DBState.empty true) "Corolla" 42).1
      = (0, some DBErr.constraintForeignKey) ∧
    DBErr.constraintForeignKey ≠ DBErr.errDuplicate ∧
    (CreateModel (DBState.empty true) "Corolla" 42).2 = DBState.empty true :=
  CreateModel_missing_brand_fk (DBState.empty true) "Corolla" 42 rfl
    (by decide) (by decide)

/-- Claim C6 (code bug): on a fresh store `CreateBrand("Toyota")` succeeds
with identity 1 and the brand table does hold exactly one row
(1, "Toyota") — but the round trip breaks at `GetAllBrands()`, which
returns an error (its single-row `Get` rejects the slice destination
before reading any rows) and the empty slice instead of the inserted
entry. -/
theorem CreateBrand_roundtrip_broken :
    (CreateBrand (DBState.empty false) "Toyota").1 = (1, none) ∧
    (CreateBrand (DBState.empty false) "Toyota").2.brands = [⟨1, "Toyota"⟩] ∧
    GetAllBrands (CreateBrand (DBState.empty false) "Toyota").2
      = ([], some (DBErr.scannableSliceErr 2)) :=
  ⟨rfl, rfl, rfl⟩

/-- The store used to exhibit claim C9: brand (1, "Toyota") owning model
(1, "Corolla", 1), built through the store's own operations. -/
def joinExampleState : DBState :=
  (CreateModel (CreateBrand (DBState.empty false) "Toyota").2 "Corolla" 1).2

/-- Claim C9 (code bug): the join of `GetModelsByBrandName("Toyota")`
matches exactly the model row (1, "Corolla", 1) on `joinExampleState`,
but the method does not return it: its single-row `Get` rejects the slice
destination (four columns in the result set), so the caller gets the
empty slice and an error instead of the matching models — and the Go
`Model` struct has no field for the projected `brand_name` column in any
case. -/
theorem GetModelsByBrandName_errors_despite_matches :
    modelsJoinBrandOnName joinExampleState "Toyota" = [⟨1, "Corolla", 1⟩] ∧
    GetModelsByBrandName joinExampleState "Toyota"
      = ([], some (DBErr.scannableSliceErr 4)) :=
  ⟨rfl, rfl⟩

/-- Claim C10 (confirmed): every error path of the three insert methods
returns identity 0 alongside the error — whenever the returned error is
non-nil the returned identity is exactly 0, for every input and state. -/
theorem create_error_returns_zero_id (s : DBState) (name typename year : String)
    (stock brand_id model_id : Int) :
    ((CreateBrand s name).1.2 ≠ none → (CreateBrand s name).1.1 = 0) ∧
    ((CreateModel s name brand_id).1.2 ≠ none → (CreateModel s name brand_id).1.1 = 0) ∧
    ((CreateWindshield s typename year stock brand_id model_id).1.2 ≠ none →
      (CreateWindshield s typename year stock brand_id model_id).1.1 = 0) := by
  refine ⟨?_, ?_, ?_⟩
  · unfold CreateBrand
    split
    · intro _; rfl
    · intro h; exact absurd rfl h
  · unfold CreateModel
    split
    · intro _; rfl
    · split
      · intro _; rfl
      · intro h; exact absurd rfl h
  · unfold CreateWindshield
    split
    · intro _; rfl
    · intro h; exact absurd rfl h

/-- Witness for C10 at a concrete input: the duplicate-name failure of
`CreateBrand "Toyota"` on a store already holding that brand returns
identity 0. -/
theorem create_error_returns_zero_id_witness :
    (CreateBrand (CreateBrand (DBState.empty false) "Toyota").2 "Toyota").1.1 = 0 :=
  (create_error_returns_zero_id (CreateBrand (DBState.empty false) "Toyota").2
      "Toyota" "" "" 0 0 0).1 (by decide)

/-! ## Preservation of referential integrity (claim C8) -/

/-- Appending brand rows cannot break referential integrity. -/
theorem noDangling_append_brand {s : DBState} (inv : NoDangling s)
    (b2 : List Brand) (nb : Int) :
    NoDangling { s with brands := s.brands ++ b2, nextBrandId := nb } := by
  obtain ⟨h1, h2⟩ := inv
  refine ⟨?_, ?_⟩
  · intro m hm
    obtain ⟨b, hb, e⟩ := h1 m hm
    exact ⟨b, List.mem_append_left b2 hb, e⟩
  · intro w hw
    obtain ⟨⟨b, hb, eb⟩, ⟨m, hm, em⟩⟩ := h2 w hw
    exact ⟨⟨b, List.mem_append_left b2 hb, eb⟩, ⟨m, hm, em⟩⟩

/-- Appending a model row whose brand reference resolves preserves
referential integrity. -/
theorem noDangling_append_model {s : DBState} (inv : NoDangling s)
    (x : Model) (nm : Int) (hx : ∃ b ∈ s.brands, b.id = x.brand_id) :
    NoDangling { s with models := s.models ++ [x], nextModelId := nm } := by
  obtain ⟨h1, h2⟩ := inv
  refine ⟨?_, ?_⟩
  · intro m hm
    rcases List.mem_append.mp hm with hm | hm
    · exact h1 m hm
    · have hmx : m = x := List.mem_singleton.mp hm
      rw [hmx]
      exact hx
  · intro w hw
    obtain ⟨⟨b, hb, eb⟩, ⟨m, hm, em⟩⟩ := h2 w hw
    exact ⟨⟨b, hb, eb⟩, ⟨m, List.mem_append_left [x] hm, em⟩⟩

/-- Appending a windshield row whose brand and model references resolve
preserves referential integrity. -/
theorem noDangling_append_windshield {s : DBState} (inv : NoDangling s)
    (x : WindshieldRow) (nw : Int)
    (hxb : ∃ b ∈ s.brands, b.id = x.brand_id)
    (hxm : ∃ m ∈ s.models, m.id = x.model_id) :
    NoDangling { s with windshields := s.windshields ++ [x], nextWindshieldId := nw } := by
  obtain ⟨h1, h2⟩ := inv
  refine ⟨h1, ?_⟩
  intro w hw
  rcases List.mem_append.mp hw with hw | hw
  · exact h2 w hw
  · have hwx : w = x := List.mem_singleton.mp hw
    rw [hwx]
    exact ⟨hxb, hxm⟩

/-- Overwriting stock values preserves referential integrity: the updated
rows keep their brand and model references. -/
theorem noDangling_updateStock {s : DBState} (inv : NoDangling s) (id stock : Int) :
    NoDangling (UpdateWindshieldStock s id stock).2 := by
  obtain ⟨h1, h2⟩ := inv
  refine ⟨h1, ?_⟩
  show ∀ w ∈ s.windshields.map
      (fun w => if w.id == id then { w with stock := stock } else w), _
  intro w hw
  obtain ⟨w0, hw0, hw1⟩ := List.mem_map.mp hw
  obtain ⟨⟨b, hb, eb⟩, ⟨m, hm, em⟩⟩ := h2 w0 hw0
  have hb2 : w.brand_id = w0.brand_id := by
    rw [← hw1]
    by_cases hid : (w0.id == id) = true <;> simp [hid]
  have hm2 : w.model_id = w0.model_id := by
    rw [← hw1]
    by_cases hid : (w0.id == id) = true <;> simp [hid]
  exact ⟨⟨b, hb, by rw [hb2]; exact eb⟩, ⟨m, hm, by rw [hm2]; exact em⟩⟩

/-- The connection flag survives a direct brand deletion. -/
theorem deleteBrandDirect_fkEnabled (s : DBState) (id : Int) :
    (deleteBrandDirect s id).fkEnabled = s.fkEnabled := by
  unfold deleteBrandDirect
  split <;> rfl

/-- With foreign keys enforced, the cascading delete of a brand preserves
referential integrity: every surviving model still finds its brand (that
brand cannot be the deleted one), and every surviving windshield row
still finds its brand and its model (a windshield whose model was swept
away is itself swept away). -/
theorem noDangling_deleteBrand {s : DBState} (inv : NoDangling s)
    (hfk : s.fkEnabled = true) (id : Int) :
    NoDangling (deleteBrandDirect s id) := by
  obtain ⟨h1, h2⟩ := inv
  unfold deleteBrandDirect
  rw [if_pos hfk]
  constructor
  · intro m hm
    rw [List.mem_filter] at hm
    obtain ⟨hmm, hmc⟩ := hm
    obtain ⟨b, hb, e⟩ := h1 m hmm
    refine ⟨b, List.mem_filter.mpr ⟨hb, ?_⟩, e⟩
    rw [e]
    exact hmc
  · intro w hw
    rw [List.mem_filter] at hw
    obtain ⟨hwm, hwc⟩ := hw
    have hcasc : windshieldCascades s id w = false := by
      cases h : windshieldCascades s id w with
      | false => rfl
      | true => rw [h] at hwc; exact absurd hwc (by decide)
    unfold windshieldCascades at hcasc
    obtain ⟨hbid, hany⟩ := Bool.or_eq_false_iff.mp hcasc
    obtain ⟨⟨b, hb, eb⟩, ⟨m, hm, em⟩⟩ := h2 w hwm
    constructor
    · refine ⟨b, List.mem_filter.mpr ⟨hb, ?_⟩, eb⟩
      refine bne_iff_ne.mpr ?_
      rw [eb]
      exact beq_eq_false_iff_ne.mp hbid
    · refine ⟨m, List.mem_filter.mpr ⟨hm, ?_⟩, em⟩
      refine bne_iff_ne.mpr ?_
      intro hmb
      have hmem : m ∈ s.models.filter (fun m2 => m2.brand_id == id) :=
        List.mem_filter.mpr ⟨hm, beq_iff_eq.mpr hmb⟩
      have hT : (s.models.filter (fun m2 => m2.brand_id == id)).any
          (fun m2 => m2.id == w.model_id) = true :=
        List.any_eq_true.mpr ⟨m, hmem, beq_iff_eq.mpr em⟩
      rw [hT] at hany
      exact Bool.noConfusion hany

/-- Claim C8 as amended: *provided the connection enforces foreign keys*,
every state reachable through the store's operations together with direct
storage-level brand deletion is referentially intact — no model row
references a deleted brand and no windshield row references a deleted
brand or model, because `ON DELETE CASCADE` removes the dependents along
with the brand.  (As stated the claim fails, because the connection does
not enforce foreign keys by default — see the counterexample.) -/
theorem cascade_invariant (s : DBState) (h : Reachable s)
    (hfk : s.fkEnabled = true) : NoDangling s := by
  revert hfk
  induction h with
  | init fk =>
    intro _
    exact ⟨fun m hm => absurd hm (List.not_mem_nil m),
           fun w hw => absurd hw (List.not_mem_nil w)⟩
  | createBrand hr name ih =>
    intro hfk
    rcases CreateBrand_state _ name with he | he <;> rw [he] at hfk ⊢
    · exact ih hfk
    · exact noDangling_append_brand (ih hfk) _ _
  | createModel hr name brand_id ih =>
    intro hfk
    rcases CreateModel_state _ name brand_id with he | ⟨hbr, he⟩ <;> rw [he] at hfk ⊢
    · exact ih hfk
    · exact noDangling_append_model (ih hfk) _ _ (hbr hfk)
  | createWindshield hr typename year stock brand_id model_id ih =>
    intro hfk
    rcases CreateWindshield_state _ typename year stock brand_id model_id
      with he | ⟨hbm, he⟩ <;> rw [he] at hfk ⊢
    · exact ih hfk
    · exact noDangling_append_windshield (ih hfk) _ _ (hbm hfk).1 (hbm hfk).2
  | updateStock hr id stock ih =>
    intro hfk
    exact noDangling_updateStock (ih hfk) id stock
  | deleteBrand hr id ih =>
    intro hfk
    rw [deleteBrandDirect_fkEnabled] at hfk
    exact noDangling_deleteBrand (ih hfk) hfk id

/-- Witness for the amended C8 at a concrete reachable state: the store
obtained — with enforcement on — by creating brand "Toyota", model
"Corolla" under it, and a windshield record under both, is referentially
intact. -/
theorem cascade_invariant_witness :
    NoDangling (CreateWindshield
      (CreateModel (CreateBrand (DBState.empty true) "Toyota").2 "Corolla" 1).2
      "WINDSHIELD" "2020" 4 1 1).2 :=
  cascade_invariant _
    (Reachable.createWindshield
      (Reachable.createModel
        (Reachable.createBrand (Reachable.init true) "Toyota") "Corolla" 1)
      "WINDSHIELD" "2020" 4 1 1)
    rfl

/-- The state refuting claim C8 as stated: on the default connection
(foreign keys not enforced), create brand "Toyota" (id 1), create model
"Corolla" under it, then delete the brand directly. -/
def orphanState : DBState :=
  deleteBrandDirect
    (CreateModel (CreateBrand (DBState.empty false) "Toyota").2 "Corolla" 1).2 1

/-- Counterexample to claim C8 as stated: `orphanState` is reachable
through the store's operations plus one direct brand deletion, yet its
model row (1, "Corolla", 1) references the deleted brand 1 — with
enforcement off, SQLite does not act on `ON DELETE CASCADE`, so the
dependent model survives as a dangling row. -/
theorem cascade_counterexample :
    Reachable orphanState ∧ ¬ NoDangling orphanState := by
  constructor
  · exact Reachable.deleteBrand
      (Reachable.createModel
        (Reachable.createBrand (Reachable.init false) "Toyota") "Corolla" 1) 1
  · decide

end Parabrisas
